import Mathlib

/-!
Shallow embedding of the MediaWiki MCP server's client and tool-rendering
layer (src/mediawiki-client.ts, src/mediawiki-tools.ts, src/types.ts).

The client's remote operations are modelled as pure functions from a
`TransportOutcome` (the result of the single HTTP round trip performed by
`apiRequest`) to the value or failure the TypeScript method produces.
JavaScript strings are modelled as Lean `String`s, optional/omitted JSON
fields as `Option`, numbers that the code subtracts as `Int`, and the
thrown `Error` as the `Except.error` branch of `Except String`.
-/

set_option autoImplicit false

namespace MediaWikiMCP

/-! ## Value records (src/types.ts) -/

/-- One full-text search match (interface SearchResult). -/
structure SearchResult where
  title : String := ""
  pageid : Nat := 0
  snippet : String := ""
  wordcount : Nat := 0
  size : Int := 0
  timestamp : String := ""
deriving Repr, DecidableEq

/-- A page's current text plus metadata (interface PageContent). -/
structure PageContent where
  pageid : Nat := 0
  title : String := ""
  content : String := ""
  timestamp : String := ""
  user : String := ""
  comment : String := ""
  categories : List String := []
  size : Int := 0
deriving Repr, DecidableEq

/-- One historical edit (interface Revision). -/
structure Revision where
  revid : Nat := 0
  parentid : Nat := 0
  timestamp : String := ""
  user : String := ""
  comment : String := ""
  size : Int := 0
  minor : Bool := false
deriving Repr, DecidableEq

instance : Inhabited Revision := ⟨{}⟩

/-- A page, file or subcategory inside a category (interface CategoryMember). -/
structure CategoryMember where
  pageid : Nat := 0
  title : String := ""
  timestamp : String := ""
deriving Repr, DecidableEq

/-- One logged wiki event (interface RecentChange). -/
structure RecentChange where
  type : String := ""
  title : String := ""
  pageid : Nat := 0
  revid : Nat := 0
  old_revid : Nat := 0
  rcid : Nat := 0
  user : String := ""
  timestamp : String := ""
  comment : String := ""
  oldlen : Int := 0
  newlen : Int := 0
deriving Repr, DecidableEq

/-! ## Remote response shapes

The MediaWiki JSON responses, with every field the code reads through an
optional-chaining access (`?.`) modelled as `Option`. Every top-level
response may carry an embedded `error` member even when the HTTP request
itself succeeded. -/

/-- The error member of a MediaWiki response body (`error.info` is read). -/
structure ApiError where
  info : Option String := none
deriving Repr, DecidableEq

/-- The `main` slot of a revision (`slots.main.content`). -/
structure MainSlot where
  content : Option String := none
deriving Repr, DecidableEq

/-- The `slots` member of a revision. -/
structure Slots where
  main : Option MainSlot := none
deriving Repr, DecidableEq

/-- A revision as returned for `prop=revisions&rvprop=content|timestamp|user|comment`. -/
structure ApiRevision where
  slots : Option Slots := none
  timestamp : Option String := none
  user : Option String := none
  comment : Option String := none
deriving Repr, DecidableEq

/-- A category entry attached to a page (`page.categories[i].title`). -/
structure ApiCategory where
  title : String := ""
deriving Repr, DecidableEq

/-- A page object of a `action=query&titles=…` response (formatversion 2). -/
structure ApiPage where
  pageid : Nat := 0
  title : String := ""
  missing : Bool := false
  revisions : Option (List ApiRevision) := none
  categories : Option (List ApiCategory) := none
  length : Option Int := none
deriving Repr, DecidableEq

/-- The `query` member of a page lookup response. -/
structure PageQuery where
  pages : Option (List ApiPage) := none
deriving Repr, DecidableEq

/-- Response body for `MediaWikiClient.getPage`. -/
structure PageResponse where
  query : Option PageQuery := none
  error : Option ApiError := none
deriving Repr, DecidableEq

/-- The `query` member of a search response. -/
structure SearchQuery where
  search : Option (List SearchResult) := none
deriving Repr, DecidableEq

/-- Response body for `MediaWikiClient.searchPages`. -/
structure SearchResponse where
  query : Option SearchQuery := none
  error : Option ApiError := none
deriving Repr, DecidableEq

/-- A page object of a history lookup (`rvprop=ids|timestamp|user|comment|size|flags`). -/
structure HistoryPage where
  revisions : Option (List Revision) := none
deriving Repr, DecidableEq

/-- The `query` member of a history response. -/
structure HistoryQuery where
  pages : Option (List HistoryPage) := none
deriving Repr, DecidableEq

/-- Response body for `MediaWikiClient.getPageHistory`. -/
structure HistoryResponse where
  query : Option HistoryQuery := none
  error : Option ApiError := none
deriving Repr, DecidableEq

/-- The `query` member of a category-members response. -/
structure CategoryMembersQuery where
  categorymembers : Option (List CategoryMember) := none
deriving Repr, DecidableEq

/-- Response body for `MediaWikiClient.getCategoryMembers`. -/
structure CategoryMembersResponse where
  query : Option CategoryMembersQuery := none
  error : Option ApiError := none
deriving Repr, DecidableEq

/-- The `query` member of a recent-changes response. -/
structure RecentChangesQuery where
  recentchanges : Option (List RecentChange) := none
deriving Repr, DecidableEq

/-- Response body for `MediaWikiClient.getRecentChanges`. -/
structure RecentChangesResponse where
  query : Option RecentChangesQuery := none
  error : Option ApiError := none
deriving Repr, DecidableEq

/-! ## Transport model and apiRequest -/

/-- A response body as seen attached to a failed HTTP exchange
(`error.response?.data` in the catch block): the only member the code
reads from it is the optional `error` payload. -/
structure ErrorData where
  error : Option ApiError := none
deriving Repr, DecidableEq

/-- Outcome of the one `axios.get` call inside `apiRequest`:
either the promise resolves with a body (HTTP success), or axios throws an
`AxiosError` (non-2xx status or network failure) optionally carrying the
failed response's body, or some non-axios exception is thrown. -/
inductive TransportOutcome (α : Type) where
  | success (data : α)
  | axiosFailure (response : Option ErrorData) (message : String)
  | otherFailure (err : String)
deriving Repr, DecidableEq

/-- MediaWikiClient.apiRequest (mediawiki-client.ts lines 44-62): returns
`response.data` on success; on an axios error throws
`new Error("MediaWiki API error: " + (error.response?.data?.error?.info || error.message))`;
rethrows any non-axios error unchanged. -/
def apiRequest {α : Type} : TransportOutcome α → Except String α
  | .success data => .ok data
  | .axiosFailure response message =>
      .error ("MediaWiki API error: "
        ++ (((response.bind ErrorData.error).bind ApiError.info).getD message))
  | .otherFailure err => .error err

/-! ## Client operations (result extraction after apiRequest) -/

/-- MediaWikiClient.searchPages result: `data.query?.search || []`. -/
def searchPagesResult (t : TransportOutcome SearchResponse) :
    Except String (List SearchResult) :=
  (apiRequest t).map (fun data => ((data.query.bind SearchQuery.search).getD []))

/-- The PageContent record built by getPage for a present page
(mediawiki-client.ts lines 107-119), with each `||`-defaulted optional
field modelled by `Option.getD`. -/
def pageContentOf (page : ApiPage) : PageContent :=
  let revision := page.revisions.bind List.head?
  { pageid := page.pageid
    title := page.title
    content := ((((revision.bind ApiRevision.slots).bind Slots.main).bind
      MainSlot.content).getD "")
    timestamp := ((revision.bind ApiRevision.timestamp).getD "")
    user := ((revision.bind ApiRevision.user).getD "")
    comment := ((revision.bind ApiRevision.comment).getD "")
    categories := ((page.categories.map (fun cs => cs.map ApiCategory.title)).getD [])
    size := (page.length.getD 0) }

/-- MediaWikiClient.getPage body after the request (lines 101-119):
null when `pages` is absent or empty, null when the first page carries
`missing`, otherwise the normalized PageContent. -/
def getPageData (data : PageResponse) : Option PageContent :=
  match data.query.bind PageQuery.pages with
  | none => none
  | some [] => none
  | some (page :: _) =>
      if page.missing then none else some (pageContentOf page)

/-- MediaWikiClient.getPage: apiRequest then `getPageData`. -/
def getPageResult (t : TransportOutcome PageResponse) :
    Except String (Option PageContent) :=
  (apiRequest t).map getPageData

/-- MediaWikiClient.getPageHistory result (lines 147-151):
`[]` when `pages` is absent or empty, otherwise `page.revisions || []`. -/
def getPageHistoryResult (t : TransportOutcome HistoryResponse) :
    Except String (List Revision) :=
  (apiRequest t).map (fun data =>
    match data.query.bind HistoryQuery.pages with
    | none => []
    | some [] => []
    | some (page :: _) => (page.revisions.getD []))

/-- MediaWikiClient.getCategoryMembers result: `data.query?.categorymembers || []`. -/
def getCategoryMembersResult (t : TransportOutcome CategoryMembersResponse) :
    Except String (List CategoryMember) :=
  (apiRequest t).map (fun data =>
    ((data.query.bind CategoryMembersQuery.categorymembers).getD []))

/-- MediaWikiClient.getRecentChanges result: `data.query?.recentchanges || []`. -/
def getRecentChangesResult (t : TransportOutcome RecentChangesResponse) :
    Except String (List RecentChange) :=
  (apiRequest t).map (fun data =>
    ((data.query.bind RecentChangesQuery.recentchanges).getD []))

/-! ## getCategoryMembers request construction (mediawiki-client.ts 176-199) -/

/-- JavaScript `String.prototype.startsWith`. -/
def strStartsWith (s pre : String) : Bool :=
  pre.data.isPrefixOf s.data

/-- The remote request parameters built by getCategoryMembers (before the
constant `format`/`formatversion` pair merged in by apiRequest). -/
structure CategoryMembersParams where
  action : String
  list : String
  cmtitle : String
  cmlimit : Nat
  cmprop : String
  cmtype : Option String
deriving Repr, DecidableEq

/-- Category-argument normalization plus parameter construction of
getCategoryMembers: prepend "Category:" unless already present. -/
def categoryMembersParams (category : String) (limit : Nat)
    (type? : Option String) : CategoryMembersParams :=
  let categoryTitle :=
    if strStartsWith category "Category:" then category
    else "Category:" ++ category
  { action := "query"
    list := "categorymembers"
    cmtitle := categoryTitle
    cmlimit := limit
    cmprop := "ids|title|timestamp"
    cmtype := type? }

/-! ## getPageUrl (mediawiki-client.ts 263-266)

`encodeURIComponent(title.replace(/ /g, '_'))` appended to
`baseUrl + "/index.php/"`. `encodeURIComponent` is the ECMAScript
built-in: percent-encode the UTF-8 bytes of the string, leaving the
unreserved characters A-Z a-z 0-9 - _ . ! ~ * ( ) and the apostrophe
(byte 39) literal, with uppercase hex digits. -/

/-- The character substitution of `title.replace(/ /g, '_')`. -/
def replSpaceChar (c : Char) : Char :=
  if c = ' ' then '_' else c

/-- JavaScript `title.replace(/ /g, '_')`: every space becomes an underscore. -/
def replaceSpaces (s : String) : String :=
  ⟨s.data.map replSpaceChar⟩

/-- UTF-8 encoding of one scalar value, as a list of byte values. -/
def utf8Bytes (c : Char) : List Nat :=
  let n := c.toNat
  if n < 128 then [n]
  else if n < 2048 then [192 + n / 64, 128 + n % 64]
  else if n < 65536 then [224 + n / 4096, 128 + (n / 64) % 64, 128 + n % 64]
  else [240 + n / 262144, 128 + (n / 4096) % 64, 128 + (n / 64) % 64, 128 + n % 64]

/-- UTF-8 byte sequence of a string. -/
def strBytes (s : String) : List Nat :=
  s.data.flatMap utf8Bytes

/-- The bytes `encodeURIComponent` leaves unescaped. -/
def isUnreservedByte (b : Nat) : Bool :=
  decide ((65 ≤ b ∧ b ≤ 90) ∨ (97 ≤ b ∧ b ≤ 122) ∨ (48 ≤ b ∧ b ≤ 57) ∨
    b = 45 ∨ b = 95 ∨ b = 46 ∨ b = 33 ∨ b = 126 ∨ b = 42 ∨ b = 39 ∨
    b = 40 ∨ b = 41)

/-- Uppercase hexadecimal digit for a value below 16. -/
def hexDigitChar (n : Nat) : Char :=
  if n < 10 then Char.ofNat (48 + n) else Char.ofNat (55 + n)

/-- Percent-encoding of a single byte. -/
def encodeByte (b : Nat) : List Char :=
  if isUnreservedByte b then [Char.ofNat b]
  else ['%', hexDigitChar (b / 16), hexDigitChar (b % 16)]

/-- Percent-encoding of a byte sequence, as a string. -/
def uriEncodeBytes (bs : List Nat) : String :=
  ⟨bs.flatMap encodeByte⟩

/-- ECMAScript `encodeURIComponent`. -/
def encodeURIComponent (s : String) : String :=
  uriEncodeBytes (strBytes s)

/-- MediaWikiClient.getPageUrl, with `baseUrl` the already
trailing-slash-stripped base address held by the client. -/
def getPageUrl (baseUrl title : String) : String :=
  baseUrl ++ "/index.php/" ++ encodeURIComponent (replaceSpaces title)

/-- The constructor's `config.baseUrl.replace(/\/$/, '')`: strip one
trailing slash. -/
def stripTrailingSlash (s : String) : String :=
  if s.endsWith "/" then s.dropRight 1 else s

/-- Value of one hexadecimal digit character, if it is one. -/
def hexVal (c : Char) : Option Nat :=
  let n := c.toNat
  if 48 ≤ n ∧ n ≤ 57 then some (n - 48)
  else if 65 ≤ n ∧ n ≤ 70 then some (n - 55)
  else if 97 ≤ n ∧ n ≤ 102 then some (n - 87)
  else none

/-- Percent-decoding of a character sequence back to byte values
(a literal character stands for its code point). Inverse direction used
to state the round-trip properties of the spec. -/
def percentDecode : List Char → Option (List Nat)
  | [] => some []
  | c :: rest =>
      if c = '%' then
        match rest with
        | h1 :: h2 :: rest' =>
            match hexVal h1, hexVal h2 with
            | some a, some b => (percentDecode rest').map (fun bs => (16 * a + b) :: bs)
            | _, _ => none
        | _ => none
      else (percentDecode rest).map (fun bs => c.toNat :: bs)

/-- Percent-decoding of a string. -/
def percentDecodeStr (s : String) : Option (List Nat) :=
  percentDecode s.data

/-! ## formatTimestamp (mediawiki-client.ts 271-280)

`new Date(timestamp).toLocaleString('en-US', {year:'numeric', month:'short',
day:'numeric', hour:'2-digit', minute:'2-digit'})`. Without a `timeZone`
option, ECMA-402 renders in the host environment's current default time
zone, so the rendering is a function of the timestamp AND that ambient
zone; the zone is modelled as an explicit offset in minutes. The parser
models ECMAScript date-time string parsing restricted to the canonical
MediaWiki forms `YYYY-MM-DDTHH:MM:SSZ` and `YYYY-MM-DDTHH:MM:SS.mmmZ`
(interpreted as UTC); any other input stands for an invalid date. -/

/-- Gregorian leap-year test. -/
def leapYear (y : Nat) : Bool :=
  y % 4 == 0 && (y % 100 != 0 || y % 400 == 0)

/-- Number of days in a month of a given year. -/
def daysInMonth (y m : Nat) : Nat :=
  if m = 2 then (if leapYear y then 29 else 28)
  else if m = 4 ∨ m = 6 ∨ m = 9 ∨ m = 11 then 30
  else 31

/-- Days from the epoch 1970-01-01 to a civil date (Gregorian calendar). -/
def daysFromCivil (y m d : Int) : Int :=
  let yAdj := if m ≤ 2 then y - 1 else y
  let era := Int.ediv yAdj 400
  let yoe := yAdj - era * 400
  let mp := Int.emod (m + 9) 12
  let doy := Int.ediv (153 * mp + 2) 5 + d - 1
  let doe := yoe * 365 + Int.ediv yoe 4 - Int.ediv yoe 100 + doy
  era * 146097 + doe - 719468

/-- Civil date (year, month, day) of a day count from the epoch. -/
def civilFromDays (z0 : Int) : Int × Int × Int :=
  let z := z0 + 719468
  let era := Int.ediv z 146097
  let doe := z - era * 146097
  let yoe := Int.ediv (doe - Int.ediv doe 1460 + Int.ediv doe 36524 -
    Int.ediv doe 146096) 365
  let y := yoe + era * 400
  let doy := doe - (365 * yoe + Int.ediv yoe 4 - Int.ediv yoe 100)
  let mp := Int.ediv (5 * doy + 2) 153
  let d := doy - Int.ediv (153 * mp + 2) 5 + 1
  let m := mp + (if mp < 10 then 3 else -9)
  (if m ≤ 2 then y + 1 else y, m, d)

/-- Numeric value of a decimal digit character. -/
def digitVal (c : Char) : Nat :=
  c.toNat - 48

/-- Minutes since the epoch of a canonical UTC timestamp string, or none
when the string is not a valid date. -/
def parseTimestampMinutes (s : String) : Option Int :=
  match s.data with
  | [y3, y2, y1, y0, '-', b1, b0, '-', d1, d0, 'T',
     h1, h0, ':', n1, n0, ':', s1, s0, 'Z'] =>
      parseCivilFields y3 y2 y1 y0 b1 b0 d1 d0 h1 h0 n1 n0 s1 s0
  | [y3, y2, y1, y0, '-', b1, b0, '-', d1, d0, 'T',
     h1, h0, ':', n1, n0, ':', s1, s0, '.', f2, f1, f0, 'Z'] =>
      if f2.isDigit && f1.isDigit && f0.isDigit then
        parseCivilFields y3 y2 y1 y0 b1 b0 d1 d0 h1 h0 n1 n0 s1 s0
      else none
  | _ => none
where
  parseCivilFields (y3 y2 y1 y0 b1 b0 d1 d0 h1 h0 n1 n0 s1 s0 : Char) :
      Option Int :=
    if y3.isDigit && y2.isDigit && y1.isDigit && y0.isDigit &&
       b1.isDigit && b0.isDigit && d1.isDigit && d0.isDigit &&
       h1.isDigit && h0.isDigit && n1.isDigit && n0.isDigit &&
       s1.isDigit && s0.isDigit then
      let y := 1000 * digitVal y3 + 100 * digitVal y2 + 10 * digitVal y1 + digitVal y0
      let mo := 10 * digitVal b1 + digitVal b0
      let d := 10 * digitVal d1 + digitVal d0
      let hh := 10 * digitVal h1 + digitVal h0
      let mi := 10 * digitVal n1 + digitVal n0
      let ss := 10 * digitVal s1 + digitVal s0
      if 1 ≤ mo ∧ mo ≤ 12 ∧ 1 ≤ d ∧ d ≤ daysInMonth y mo ∧
         hh ≤ 23 ∧ mi ≤ 59 ∧ ss ≤ 59 then
        some (daysFromCivil (Int.ofNat y) (Int.ofNat mo) (Int.ofNat d) * 1440 +
          Int.ofNat hh * 60 + Int.ofNat mi)
      else none
    else none

/-- Abbreviated en-US month names. -/
def monthShortName (m : Int) : String :=
  List.getD ["Jan", "Feb", "Mar", "Apr", "May", "Jun",
    "Jul", "Aug", "Sep", "Oct", "Nov", "Dec"] (m.toNat - 1) ""

/-- Two-digit zero-padded rendering of a small nonnegative number. -/
def pad2 (n : Int) : String :=
  if n < 10 then "0" ++ toString n else toString n

/-- MediaWikiClient.formatTimestamp: en-US short-month rendering of the
timestamp in the host environment's time zone, the latter given as an
offset from UTC in minutes. -/
def formatTimestamp (tzOffsetMinutes : Int) (timestamp : String) : String :=
  match parseTimestampMinutes timestamp with
  | none => "Invalid Date"
  | some utcMin =>
      let localMin := utcMin + tzOffsetMinutes
      let days := Int.ediv localMin 1440
      let minOfDay := Int.emod localMin 1440
      let ymd := civilFromDays days
      let hh := Int.ediv minOfDay 60
      let mi := Int.emod minOfDay 60
      let h12 := if Int.emod hh 12 = 0 then 12 else Int.emod hh 12
      let ampm := if hh < 12 then "AM" else "PM"
      monthShortName ymd.2.1 ++ " " ++ toString ymd.2.2 ++ ", " ++
        toString ymd.1 ++ ", " ++ pad2 h12 ++ ":" ++ pad2 mi ++ " " ++ ampm

/-! ## Tool rendering (src/mediawiki-tools.ts) -/

/-- Does a character list still contain a greater-than sign? -/
def containsGt : List Char → Bool
  | [] => false
  | c :: rest => c == '>' || containsGt rest

/-- The suffix after the first greater-than sign, if any. -/
def splitAtGt : List Char → Option (List Char)
  | [] => none
  | c :: rest => if c = '>' then some rest else splitAtGt rest

/-- Fuel-indexed worker for `stripTags`; the fuel only bounds recursion
depth and is always supplied large enough. -/
def stripTagsN : Nat → List Char → List Char
  | 0, cs => cs
  | _ + 1, [] => []
  | fuel + 1, c :: rest =>
      if c = '<' then
        match splitAtGt rest with
        | some after => stripTagsN fuel after
        | none => c :: rest
      else c :: stripTagsN fuel rest

/-- JavaScript `snippet.replace(/<[^>]*>/g, '')` (mediawiki-tools.ts line
42): scanning left to right, a less-than sign followed somewhere by a
greater-than sign is removed together with everything between them (up to
the first greater-than sign); a less-than sign with no later greater-than
sign can match nowhere, so the remainder is kept verbatim. -/
def stripTags (cs : List Char) : List Char :=
  stripTagsN cs.length cs

/-- Tag stripping on strings. -/
def stripTagsStr (s : String) : String :=
  ⟨stripTags s.data⟩

/-- Does the rendered text still contain a less-than sign that is followed
by a greater-than sign (the shape of a removable HTML tag)? -/
def hasTag : List Char → Bool
  | [] => false
  | c :: rest => (c == '<' && containsGt rest) || hasTag rest

/-- One search-result entry of the search_pages tool text
(mediawiki-tools.ts lines 40-43). -/
def renderSearchResult (baseUrl : String) (tz : Int) (index : Nat)
    (result : SearchResult) : String :=
  toString (index + 1) ++ ". **" ++ result.title ++ "**\n" ++
  "   URL: " ++ getPageUrl baseUrl result.title ++ "\n" ++
  "   Snippet: " ++ stripTagsStr result.snippet ++ "\n" ++
  "   Size: " ++ toString result.size ++ " bytes | Words: " ++
  toString result.wordcount ++ " | Modified: " ++
  formatTimestamp tz result.timestamp ++ "\n\n"

/-- The size delta computed for one revision entry of get_page_history
(mediawiki-tools.ts lines 122-124): against the next entry when one
exists, zero for the final entry. -/
def historySizeDiff (revisions : List Revision) (index : Nat) : Int :=
  if index < revisions.length - 1 then
    (revisions.getD index default).size - (revisions.getD (index + 1) default).size
  else 0

/-- The delta text of one revision entry (mediawiki-tools.ts line 125):
`(+d)` when positive, `(d)` when negative, empty when zero. -/
def historyDiffText (revisions : List Revision) (index : Nat) : String :=
  let sizeDiff := historySizeDiff revisions index
  if sizeDiff > 0 then "(+" ++ toString sizeDiff ++ ")"
  else if sizeDiff < 0 then "(" ++ toString sizeDiff ++ ")"
  else ""

/-- One revision entry of the get_page_history tool text
(mediawiki-tools.ts lines 127-130). -/
def renderHistoryEntry (tz : Int) (revisions : List Revision) (index : Nat)
    (rev : Revision) : String :=
  toString (index + 1) ++ ". [Revision " ++ toString rev.revid ++ "] " ++
  formatTimestamp tz rev.timestamp ++ (if rev.minor then " (minor)" else "") ++
  "\n   By: " ++ rev.user ++
  "\n   Comment: " ++ (if rev.comment = "" then "No comment" else rev.comment) ++
  "\n   Size: " ++ toString rev.size ++ " bytes " ++
  historyDiffText revisions index ++ "\n\n"

/-- The size delta text of one get_recent_changes entry (mediawiki-tools.ts
lines 246-247): `newlen - oldlen`, with an explicit leading plus sign when
positive and the bare number otherwise. -/
def rcDiffText (change : RecentChange) : String :=
  let sizeDiff := change.newlen - change.oldlen
  if sizeDiff > 0 then "+" ++ toString sizeDiff else toString sizeDiff

/-- One entry of the get_recent_changes tool text (mediawiki-tools.ts
lines 249-253). -/
def renderRecentChange (baseUrl : String) (tz : Int) (index : Nat)
    (change : RecentChange) : String :=
  toString (index + 1) ++ ". [" ++ change.type.toUpper ++ "] **" ++
  change.title ++ "** - " ++ formatTimestamp tz change.timestamp ++
  "\n   By: " ++ change.user ++
  "\n   Comment: " ++ (if change.comment = "" then "No comment" else change.comment) ++
  "\n   Size change: " ++ rcDiffText change ++ " bytes" ++
  "\n   URL: " ++ getPageUrl baseUrl change.title ++ "\n\n"

/-- The fixed not-found text of the get_page tool (mediawiki-tools.ts
lines 66-73). -/
def pageNotFoundText (title : String) : String :=
  "Page \"" ++ title ++ "\" not found"

/-- The success text of the get_page tool (mediawiki-tools.ts lines 80-88),
where `content` is the body chosen by the include_html switch. -/
def renderGetPageText (baseUrl : String) (tz : Int) (page : PageContent)
    (content : String) : String :=
  let cats := String.intercalate ", " page.categories
  "# Page: " ++ page.title ++ "\n" ++
  "URL: " ++ getPageUrl baseUrl page.title ++ "\n\n" ++
  "## Metadata\n" ++
  "- Page ID: " ++ toString page.pageid ++ "\n" ++
  "- Last Modified: " ++ formatTimestamp tz page.timestamp ++ " by " ++
  page.user ++ "\n" ++
  "- Categories: " ++ (if cats = "" then "None" else cats) ++ "\n" ++
  "- Size: " ++ toString page.size ++ " bytes\n" ++
  "- Comment: " ++ (if page.comment = "" then "No comment" else page.comment) ++
  "\n\n## Content\n\n" ++ content

/-- The complete get_page tool handler (mediawiki-tools.ts lines 63-93):
an error from the client propagates, an absent page renders the fixed
not-found text, a present page renders its full text. `parsedHtml` stands
for the body delivered by the secondary getParsedPage call performed when
`include_html` is set. -/
def getPageTool (baseUrl : String) (tz : Int) (title : String)
    (t : TransportOutcome PageResponse) (include_html : Bool)
    (parsedHtml : String) : Except String String :=
  match getPageResult t with
  | .error e => .error e
  | .ok none => .ok (pageNotFoundText title)
  | .ok (some page) =>
      .ok (renderGetPageText baseUrl tz page
        (if include_html then parsedHtml else page.content))

/-! ## Spec-side auxiliary definitions -/

/-- Rendering of a history byte-size delta value as the spec words it:
explicit leading plus when positive, parenthesized as-is when negative,
empty when zero. Stated separately from `historyDiffText` so the theorem
relates the code's per-index computation to the delta of the size
sequence. -/
def renderHistDelta (d : Int) : String :=
  if d > 0 then "(+" ++ toString d ++ ")"
  else if d < 0 then "(" ++ toString d ++ ")"
  else ""

/-- Two character sequences differ only by replacing some spaces of the
first with underscores. -/
def spaceVariantB : List Char → List Char → Bool
  | [], [] => true
  | a :: r1, b :: r2 => (b == a || (a == ' ' && b == '_')) && spaceVariantB r1 r2
  | _, _ => false

/-! ## Helper lemmas -/

/-- A list is a Boolean prefix of itself followed by anything. -/
theorem isPrefixOf_append_self (l m : List Char) :
    List.isPrefixOf l (l ++ m) = true := by
  rw [List.isPrefixOf_iff_prefix]
  exact List.prefix_append l m

/-- Reading the size sequence of a revision list through `getD`. -/
theorem size_getD_map (l : List Revision) (n : Nat) :
    (l.map Revision.size).getD n 0 = (l.getD n default).size := by
  induction l generalizing n with
  | nil =>
    simp [List.getD]
    rfl
  | cons a r ih =>
    cases n with
    | zero => rfl
    | succ m => simpa using ih m

/-! ## C5: getCategoryMembers category normalization -/

/-- C5: for every category name not already starting with "Category:",
getCategoryMembers prepends that prefix before issuing the call, so the
request parameters built for the bare name and for the prefixed name are
identical. -/
theorem getCategoryMembers_normalizes (name : String) (limit : Nat)
    (type? : Option String)
    (h : strStartsWith name "Category:" = false) :
    categoryMembersParams name limit type? =
      categoryMembersParams ("Category:" ++ name) limit type? := by
  have h2 : strStartsWith ("Category:" ++ name) "Category:" = true := by
    unfold strStartsWith
    rw [String.data_append]
    exact isPrefixOf_append_self _ _
  unfold categoryMembersParams
  rw [h, h2]
  simp

/-- Witness for C5 at the spec's own example. -/
theorem getCategoryMembers_normalizes_witness :
    categoryMembersParams "Foo" 50 none =
      categoryMembersParams "Category:Foo" 50 none :=
  getCategoryMembers_normalizes "Foo" 50 none (by decide)

/-! ## C1: uniform transport failure -/

/-- C1 counterexample: a successful (HTTP 2xx) response whose body carries
an embedded error payload is NOT raised as a failure — searchPages maps it
to the ordinary empty result, because apiRequest only inspects errors in
its catch path. -/
theorem searchPages_embedded_error_not_raised :
    searchPagesResult (TransportOutcome.success
      { query := none,
        error := some { info := some "readapidenied: You need read permission" } })
      = Except.ok [] := rfl

/-- C1 (amended): when the HTTP client itself raises (transport-level
failure), every client operation raises exactly one uniform failure whose
message is the remote-reported error description attached to the failed
response when available, and otherwise the raw transport error message;
the failure propagates through every operation's result extraction and is
never converted into a normal result. -/
theorem client_transport_failure_uniform (response : Option ErrorData)
    (message : String) :
    (∀ info, (response.bind ErrorData.error).bind ApiError.info = some info →
      searchPagesResult (.axiosFailure response message)
          = .error ("MediaWiki API error: " ++ info)
        ∧ getPageResult (.axiosFailure response message)
          = .error ("MediaWiki API error: " ++ info)
        ∧ getPageHistoryResult (.axiosFailure response message)
          = .error ("MediaWiki API error: " ++ info)
        ∧ getCategoryMembersResult (.axiosFailure response message)
          = .error ("MediaWiki API error: " ++ info)
        ∧ getRecentChangesResult (.axiosFailure response message)
          = .error ("MediaWiki API error: " ++ info))
    ∧ ((response.bind ErrorData.error).bind ApiError.info = none →
      searchPagesResult (.axiosFailure response message)
          = .error ("MediaWiki API error: " ++ message)
        ∧ getPageResult (.axiosFailure response message)
          = .error ("MediaWiki API error: " ++ message)
        ∧ getPageHistoryResult (.axiosFailure response message)
          = .error ("MediaWiki API error: " ++ message)
        ∧ getCategoryMembersResult (.axiosFailure response message)
          = .error ("MediaWiki API error: " ++ message)
        ∧ getRecentChangesResult (.axiosFailure response message)
          = .error ("MediaWiki API error: " ++ message)) := by
  constructor
  · intro info h
    refine ⟨?_, ?_, ?_, ?_, ?_⟩ <;>
      simp [searchPagesResult, getPageResult, getPageHistoryResult,
        getCategoryMembersResult, getRecentChangesResult, apiRequest,
        Except.map, h]
  · intro h
    refine ⟨?_, ?_, ?_, ?_, ?_⟩ <;>
      simp [searchPagesResult, getPageResult, getPageHistoryResult,
        getCategoryMembersResult, getRecentChangesResult, apiRequest,
        Except.map, h]

/-- Witness for C1 (amended): one failure carrying a remote error
description, one bare network failure. -/
theorem client_transport_failure_uniform_witness :
    searchPagesResult (.axiosFailure
        (some { error := some { info := some "missingtitle" } })
        "Request failed with status code 400")
      = .error "MediaWiki API error: missingtitle"
    ∧ getPageResult (.axiosFailure none "timeout of 30000ms exceeded")
      = .error "MediaWiki API error: timeout of 30000ms exceeded" :=
  ⟨((client_transport_failure_uniform
      (some { error := some { info := some "missingtitle" } })
      "Request failed with status code 400").1 "missingtitle" rfl).1,
   ((client_transport_failure_uniform none
      "timeout of 30000ms exceeded").2 rfl).2.1⟩

/-! ## C3: missing page gives a null result and the fixed not-found text -/

/-- C3: when the remote service reports the page missing, getPage returns
a null result (not an error), and the get_page tool then returns the
fixed text for that title as a normal successful result. -/
theorem getPage_missing_renders_not_found (baseUrl : String) (tz : Int)
    (title : String) (d : PageResponse) (page : ApiPage)
    (rest : List ApiPage) (include_html : Bool) (parsedHtml : String)
    (hq : d.query.bind PageQuery.pages = some (page :: rest))
    (hm : page.missing = true) :
    getPageResult (TransportOutcome.success d) = Except.ok none
    ∧ getPageTool baseUrl tz title (TransportOutcome.success d)
        include_html parsedHtml
      = Except.ok ("Page \"" ++ title ++ "\" not found") := by
  have hdata : getPageData d = none := by
    unfold getPageData
    rw [hq]
    simp [hm]
  have hres : getPageResult (TransportOutcome.success d) = Except.ok none := by
    simp [getPageResult, apiRequest, Except.map, hdata]
  refine ⟨hres, ?_⟩
  unfold getPageTool
  rw [hres]
  rfl

/-- Witness for C3 at a concrete missing-page response. -/
theorem getPage_missing_renders_not_found_witness :
    getPageResult (TransportOutcome.success
        { query := some { pages := some [{ missing := true }] } })
      = Except.ok none
    ∧ getPageTool "https://wiki.example.com" 0 "Ghost"
        (TransportOutcome.success
          { query := some { pages := some [{ missing := true }] } })
        false ""
      = Except.ok ("Page \"" ++ "Ghost" ++ "\" not found") :=
  getPage_missing_renders_not_found "https://wiki.example.com" 0 "Ghost"
    { query := some { pages := some [{ missing := true }] } }
    { missing := true } [] false "" rfl rfl

/-! ## C8: optional response fields become documented defaults -/

/-- C8: for an existing page whose response omits optional fields, getPage
substitutes the documented defaults instead of failing: the operation
always produces a PageContent (never an error), the body is the empty
string when the revision content chain is absent, and the categories
default to the empty sequence when the page has none. -/
theorem getPage_optional_defaults (d : PageResponse) (page : ApiPage)
    (rest : List ApiPage)
    (hq : d.query.bind PageQuery.pages = some (page :: rest))
    (hm : page.missing = false) :
    getPageResult (TransportOutcome.success d)
      = Except.ok (some (pageContentOf page))
    ∧ ((((page.revisions.bind List.head?).bind ApiRevision.slots).bind
          Slots.main).bind MainSlot.content = none →
        (pageContentOf page).content = "")
    ∧ (page.categories = none → (pageContentOf page).categories = []) := by
  refine ⟨?_, ?_, ?_⟩
  · have hdata : getPageData d = some (pageContentOf page) := by
      unfold getPageData
      rw [hq]
      simp [hm]
    simp [getPageResult, apiRequest, Except.map, hdata]
  · intro h
    simp [pageContentOf, h]
  · intro h
    simp [pageContentOf, h]

/-- Witness for C8 at a page whose revision and category fields are all
omitted. -/
theorem getPage_optional_defaults_witness :
    getPageResult (TransportOutcome.success
        { query := some { pages := some [{ pageid := 7, title := "Bare" }] } })
      = Except.ok (some (pageContentOf { pageid := 7, title := "Bare" }))
    ∧ (pageContentOf { pageid := 7, title := "Bare" }).content = ""
    ∧ (pageContentOf { pageid := 7, title := "Bare" }).categories = [] :=
  ⟨(getPage_optional_defaults
      { query := some { pages := some [{ pageid := 7, title := "Bare" }] } }
      { pageid := 7, title := "Bare" } [] rfl rfl).1,
   (getPage_optional_defaults
      { query := some { pages := some [{ pageid := 7, title := "Bare" }] } }
      { pageid := 7, title := "Bare" } [] rfl rfl).2.1 rfl,
   (getPage_optional_defaults
      { query := some { pages := some [{ pageid := 7, title := "Bare" }] } }
      { pageid := 7, title := "Bare" } [] rfl rfl).2.2 rfl⟩

/-! ## C6: recent-changes size delta -/

/-- C6: in the get_recent_changes rendering the size delta is
`newlen - oldlen`; a positive delta renders with an explicit leading
plus, a non-positive delta renders as the bare signed or zero number,
with no parentheses; in particular oldlen=100, newlen=80 renders "-20"
and oldlen=100, newlen=150 renders "+50". -/
theorem recent_changes_delta_rendering (change : RecentChange) :
    (change.newlen - change.oldlen > 0 →
      rcDiffText change = "+" ++ toString (change.newlen - change.oldlen))
    ∧ (change.newlen - change.oldlen ≤ 0 →
      rcDiffText change = toString (change.newlen - change.oldlen))
    ∧ rcDiffText { oldlen := 100, newlen := 80 } = "-20"
    ∧ rcDiffText { oldlen := 100, newlen := 150 } = "+50" := by
  refine ⟨?_, ?_, by decide, by decide⟩
  · intro h
    unfold rcDiffText
    rw [if_pos h]
  · intro h
    unfold rcDiffText
    rw [if_neg (not_lt.mpr h)]

/-- Witness for C6 at the spec's example changes. -/
theorem recent_changes_delta_rendering_witness :
    rcDiffText { oldlen := 100, newlen := 150 } = "+50"
    ∧ rcDiffText { oldlen := 100, newlen := 80 } = "-20" :=
  ⟨by
    have h := (recent_changes_delta_rendering
      { oldlen := 100, newlen := 150 }).1 (by decide)
    simpa using h,
   by
    have h := (recent_changes_delta_rendering
      { oldlen := 100, newlen := 80 }).2.1 (by decide)
    simpa using h⟩

/-! ## C2: page-history size delta -/

/-- C2: in the get_page_history rendering, the delta shown for every
index except the last equals size[i] - size[i+1] over the returned size
sequence, rendered with a leading plus in parentheses when positive,
parenthesized as-is when negative and empty when zero; the last entry has
no delta rendered; sizes [500, 420, 420] render "(+80)", empty, empty. -/
theorem history_delta_rendering (revs : List Revision) (i : Nat) :
    (i + 1 < revs.length →
      historyDiffText revs i =
        renderHistDelta ((revs.map Revision.size).getD i 0 -
          (revs.map Revision.size).getD (i + 1) 0))
    ∧ (revs ≠ [] → historyDiffText revs (revs.length - 1) = "")
    ∧ historyDiffText [{ size := 500 }, { size := 420 }, { size := 420 }] 0
      = "(+80)"
    ∧ historyDiffText [{ size := 500 }, { size := 420 }, { size := 420 }] 1
      = ""
    ∧ historyDiffText [{ size := 500 }, { size := 420 }, { size := 420 }] 2
      = "" := by
  refine ⟨?_, ?_, by decide, by decide, by decide⟩
  · intro h
    unfold historyDiffText historySizeDiff renderHistDelta
    rw [if_pos (show i < revs.length - 1 by omega),
      size_getD_map, size_getD_map]
  · intro _
    unfold historyDiffText historySizeDiff
    rw [if_neg (lt_irrefl _)]
    rfl

/-- Witness for C2 at the spec's three-revision example. -/
theorem history_delta_rendering_witness :
    historyDiffText [{ size := 500 }, { size := 420 }, { size := 420 }] 0
      = "(+80)"
    ∧ historyDiffText [{ size := 500 }, { size := 420 }, { size := 420 }] 2
      = "" :=
  ⟨by
    have h := (history_delta_rendering
      [{ size := 500 }, { size := 420 }, { size := 420 }] 0).1 (by decide)
    rw [h]
    decide,
   by
    have h := (history_delta_rendering
      [{ size := 500 }, { size := 420 }, { size := 420 }] 0).2.1 (by decide)
    simpa using h⟩

/-! ## C7: snippet tag stripping -/

/-- A successful scan past the first greater-than sign strictly shortens
the character list. -/
theorem splitAtGt_length : ∀ (l l' : List Char),
    splitAtGt l = some l' → l'.length < l.length := by
  intro l
  induction l with
  | nil =>
    intro l' h
    simp [splitAtGt] at h
  | cons c rest ih =>
    intro l' h
    have he : splitAtGt (c :: rest) =
        if c = '>' then some rest else splitAtGt rest := rfl
    rw [he] at h
    by_cases hc : c = '>'
    · rw [if_pos hc] at h
      injection h with h'
      subst h'
      exact Nat.lt_succ_self _
    · rw [if_neg hc] at h
      exact Nat.lt_trans (ih l' h) (Nat.lt_succ_self _)

/-- A failed scan means there is no greater-than sign at all. -/
theorem splitAtGt_none : ∀ (l : List Char),
    splitAtGt l = none → containsGt l = false := by
  intro l
  induction l with
  | nil => intro _; rfl
  | cons c rest ih =>
    intro h
    have he : splitAtGt (c :: rest) =
        if c = '>' then some rest else splitAtGt rest := rfl
    rw [he] at h
    by_cases hc : c = '>'
    · rw [if_pos hc] at h
      exact absurd h (by simp)
    · rw [if_neg hc] at h
      have hr := ih h
      have hcg : containsGt (c :: rest) = (c == '>' || containsGt rest) := rfl
      rw [hcg]
      simp [hr, hc]

/-- Text without a greater-than sign contains no removable tag shape. -/
theorem hasTag_of_not_containsGt : ∀ (l : List Char),
    containsGt l = false → hasTag l = false := by
  intro l
  induction l with
  | nil => intro _; rfl
  | cons c rest ih =>
    intro h
    have hcg : containsGt (c :: rest) = (c == '>' || containsGt rest) := rfl
    rw [hcg] at h
    simp at h
    have ht : hasTag (c :: rest) =
        ((c == '<' && containsGt rest) || hasTag rest) := rfl
    rw [ht]
    simp [h.2, ih h.2]

/-- With enough fuel, the stripping pass leaves no tag shape behind. -/
theorem stripTagsN_no_tag : ∀ (fuel : Nat) (cs : List Char),
    cs.length ≤ fuel → hasTag (stripTagsN fuel cs) = false := by
  intro fuel
  induction fuel with
  | zero =>
    intro cs h
    have hnil : cs = [] := List.eq_nil_of_length_eq_zero (Nat.le_zero.mp h)
    subst hnil
    rfl
  | succ n ih =>
    intro cs h
    cases cs with
    | nil => rfl
    | cons c rest =>
      have hl : (c :: rest).length = rest.length + 1 := rfl
      have he : stripTagsN (n + 1) (c :: rest) =
          if c = '<' then
            match splitAtGt rest with
            | some after => stripTagsN n after
            | none => c :: rest
          else c :: stripTagsN n rest := rfl
      rw [he]
      by_cases hc : c = '<'
      · rw [if_pos hc]
        cases hsp : splitAtGt rest with
        | some after =>
          show hasTag (stripTagsN n after) = false
          have hlt := splitAtGt_length rest after hsp
          exact ih after (by omega)
        | none =>
          show hasTag (c :: rest) = false
          have hng := splitAtGt_none rest hsp
          have ht : hasTag (c :: rest) =
              ((c == '<' && containsGt rest) || hasTag rest) := rfl
          rw [ht]
          simp [hng, hasTag_of_not_containsGt rest hng]
      · rw [if_neg hc]
        have ht : hasTag (c :: stripTagsN n rest) =
            ((c == '<' && containsGt (stripTagsN n rest))
              || hasTag (stripTagsN n rest)) := rfl
        rw [ht]
        simp [hc, ih rest (by omega)]

/-- C7: the search_pages rendering strips every HTML tag from a snippet:
no less-than sign followed later by a greater-than sign survives in the
stripped text, and the spec's example snippet renders as "hello world". -/
theorem search_snippet_strips_tags :
    (∀ snippet : List Char, hasTag (stripTags snippet) = false)
    ∧ stripTagsStr "<span>hello</span> world" = "hello world" :=
  ⟨fun snippet => stripTagsN_no_tag snippet.length snippet (Nat.le_refl _),
   by decide⟩

/-! ## C9: formatTimestamp and ambient state -/

/-- C9 counterexample: the rendering of one and the same timestamp differs
between two host environments whose current time zones differ (offsets 0
and +60 minutes), because toLocaleString is not pinned to a time zone; so
formatTimestamp is not a function of its timestamp argument alone. -/
theorem formatTimestamp_depends_on_ambient_zone :
    formatTimestamp 0 "2024-06-15T23:30:00Z" = "Jun 15, 2024, 11:30 PM"
    ∧ formatTimestamp 60 "2024-06-15T23:30:00Z" = "Jun 16, 2024, 12:30 AM"
    ∧ formatTimestamp 0 "2024-06-15T23:30:00Z"
        ≠ formatTimestamp 60 "2024-06-15T23:30:00Z" :=
  ⟨by decide, by decide, by decide⟩

/-- C9 (amended): formatTimestamp is deterministic given its timestamp
argument together with the host environment's current time zone: in one
and the same ambient zone, any two timestamp strings denoting the same
instant (in particular, two evaluations on the same input) yield the
identical rendering. -/
theorem formatTimestamp_deterministic (tz : Int) (ts1 ts2 : String)
    (h : parseTimestampMinutes ts1 = parseTimestampMinutes ts2) :
    formatTimestamp tz ts1 = formatTimestamp tz ts2 := by
  unfold formatTimestamp
  rw [h]

/-- Witness for C9 (amended): the same instant written with and without
milliseconds renders identically at a fixed ambient zone. -/
theorem formatTimestamp_deterministic_witness :
    parseTimestampMinutes "2024-06-15T12:00:00Z"
      = parseTimestampMinutes "2024-06-15T12:00:00.000Z"
    ∧ formatTimestamp (-300) "2024-06-15T12:00:00Z"
      = formatTimestamp (-300) "2024-06-15T12:00:00.000Z" :=
  ⟨by decide, formatTimestamp_deterministic (-300) _ _ (by decide)⟩

/-! ## C4 and C10: getPageUrl encoding -/

/-- Every Unicode scalar value is below 0x110000. -/
theorem char_toNat_lt (c : Char) : c.toNat < 1114112 := by
  have h : c.toNat < 55296 ∨ (57343 < c.toNat ∧ c.toNat < 1114112) := c.valid
  omega

/-- UTF-8 encoding produces byte values. -/
theorem utf8Bytes_lt (c : Char) : ∀ b ∈ utf8Bytes c, b < 256 := by
  intro b hb
  have hc := char_toNat_lt c
  simp only [utf8Bytes] at hb
  split_ifs at hb with h1 h2 h3 <;> simp at hb
  · omega
  · rcases hb with rfl | rfl <;> omega
  · rcases hb with rfl | rfl | rfl <;> omega
  · rcases hb with rfl | rfl | rfl | rfl <;> omega

/-- The UTF-8 bytes of a string are byte values. -/
theorem strBytes_lt (s : String) : ∀ b ∈ strBytes s, b < 256 := by
  intro b hb
  simp only [strBytes, List.mem_flatMap] at hb
  obtain ⟨c, _, hbc⟩ := hb
  exact utf8Bytes_lt c b hbc

/-- Decoding inverts the hexadecimal digit rendering. -/
theorem hexVal_hexDigitChar : ∀ n : Nat, n < 16 →
    hexVal (hexDigitChar n) = some n := by decide

set_option maxRecDepth 8192 in
/-- A byte left literal by the encoder round-trips through its character
and is never the escape character itself. -/
theorem unreserved_byte_char : ∀ b : Nat, b < 256 → isUnreservedByte b = true →
    ((Char.ofNat b).toNat = b ∧ Char.ofNat b ≠ '%') := by decide

/-- Unfolding of the decoder at a non-escape head character. -/
theorem percentDecode_cons_ne (c : Char) (rest : List Char) (h : ¬ c = '%') :
    percentDecode (c :: rest)
      = (percentDecode rest).map (fun bs => c.toNat :: bs) := by
  rw [percentDecode.eq_def]
  simp only []
  rw [if_neg h]

/-- Unfolding of the decoder at a complete escape sequence. -/
theorem percentDecode_escape (c1 c2 : Char) (rest : List Char) (hi lo : Nat)
    (e1 : hexVal c1 = some hi) (e2 : hexVal c2 = some lo) :
    percentDecode ('%' :: c1 :: c2 :: rest)
      = (percentDecode rest).map (fun bs => (16 * hi + lo) :: bs) := by
  rw [percentDecode.eq_def]
  simp only [if_pos]
  rw [e1, e2]

/-- Percent-decoding inverts the byte-level percent-encoding. -/
theorem percentDecode_flatMap_encodeByte : ∀ (bs : List Nat),
    (∀ b ∈ bs, b < 256) → percentDecode (bs.flatMap encodeByte) = some bs := by
  intro bs
  induction bs with
  | nil => intro _; rfl
  | cons b rest ih =>
    intro h
    have hb : b < 256 := h b (List.mem_cons_self b rest)
    have hrest : ∀ x ∈ rest, x < 256 := fun x hx => h x (List.mem_cons_of_mem b hx)
    rw [List.flatMap_cons]
    by_cases hu : isUnreservedByte b = true
    · have hch := unreserved_byte_char b hb hu
      rw [show encodeByte b = [Char.ofNat b] from by
        unfold encodeByte; rw [if_pos hu]]
      rw [List.singleton_append, percentDecode_cons_ne _ _ hch.2, ih hrest]
      simp [hch.1]
    · have hu' : isUnreservedByte b = false := by
        cases hq : isUnreservedByte b
        · rfl
        · exact absurd hq hu
      rw [show encodeByte b = ['%', hexDigitChar (b / 16), hexDigitChar (b % 16)]
          from by unfold encodeByte; rw [hu']; simp]
      rw [List.cons_append, List.cons_append, List.singleton_append]
      rw [percentDecode_escape _ _ _ _ _ (hexVal_hexDigitChar _ (by omega))
        (hexVal_hexDigitChar _ (by omega)), ih hrest]
      have harith : 16 * (b / 16) + b % 16 = b := by omega
      simp [harith]

/-- Percent-decoding the output of encodeURIComponent recovers exactly
the UTF-8 bytes of its input string. -/
theorem percentDecodeStr_encode (s : String) :
    percentDecodeStr (encodeURIComponent s) = some (strBytes s) := by
  show percentDecode ((strBytes s).flatMap encodeByte) = some (strBytes s)
  exact percentDecode_flatMap_encodeByte (strBytes s) (strBytes_lt s)

/-- C4 counterexample: for the title "C +" — which contains a character
requiring escaping — the encoded segment is "C_%2B", and percent-decoding
it yields the bytes of "C_+", not those of the original title "C +": the
space-to-underscore substitution happens before encoding and is not
undone by percent-decoding. -/
theorem getPageUrl_decode_not_original :
    getPageUrl "https://wiki.example.com" "C +"
      = "https://wiki.example.com/index.php/C_%2B"
    ∧ percentDecodeStr "C_%2B" = some (strBytes "C_+")
    ∧ strBytes "C_+" ≠ strBytes "C +"
    ∧ ("C_+" : String) ≠ "C +" :=
  ⟨by decide, by decide, by decide, by decide⟩

/-- C4 (amended): getPageUrl returns the configured base address joined
with the canonical page path and the title with every space replaced by
an underscore and the result percent-encoded; getPageUrl "Main Page" ends
in Main_Page; and percent-decoding the encoded segment yields exactly the
UTF-8 bytes of the space-to-underscore form of the title — hence the
original title itself whenever the title contains no space (e.g. "C++"). -/
theorem getPageUrl_encoding (base t : String) :
    getPageUrl base "Main Page" = base ++ "/index.php/Main_Page"
    ∧ percentDecodeStr (encodeURIComponent (replaceSpaces t))
      = some (strBytes (replaceSpaces t))
    ∧ (' ' ∉ t.data → replaceSpaces t = t)
    ∧ percentDecodeStr (encodeURIComponent (replaceSpaces "C++"))
      = some (strBytes "C++") := by
  refine ⟨?_, percentDecodeStr_encode _, ?_, by decide⟩
  · show base ++ "/index.php/" ++ encodeURIComponent (replaceSpaces "Main Page")
      = base ++ "/index.php/Main_Page"
    rw [show encodeURIComponent (replaceSpaces "Main Page") = "Main_Page"
      from by decide]
    rw [String.append_assoc]
    exact congrArg (fun x => base ++ x) (by decide)
  · intro hno
    have hmap : t.data.map replSpaceChar = t.data := by
      have h2 : ∀ c ∈ t.data, replSpaceChar c = c := by
        intro c hc
        unfold replSpaceChar
        rw [if_neg (fun (hcc : c = ' ') => hno (hcc ▸ hc))]
      calc t.data.map replSpaceChar = t.data.map (fun a => a) :=
            List.map_congr_left h2
        _ = t.data := List.map_id' t.data
    unfold replaceSpaces
    rw [hmap]

/-- Witness for C4 (amended) at the spec's example titles. -/
theorem getPageUrl_encoding_witness :
    getPageUrl "https://wiki.example.com" "Main Page"
      = "https://wiki.example.com" ++ "/index.php/Main_Page"
    ∧ replaceSpaces "C++" = "C++"
    ∧ percentDecodeStr (encodeURIComponent (replaceSpaces "C++"))
      = some (strBytes "C++") :=
  ⟨(getPageUrl_encoding "https://wiki.example.com" "C++").1,
   (getPageUrl_encoding "https://wiki.example.com" "C++").2.2.1 (by decide),
   (getPageUrl_encoding "https://wiki.example.com" "C++").2.2.2⟩

/-- The space substitution identifies space/underscore variants. -/
theorem map_replSpaceChar_of_variant : ∀ (l1 l2 : List Char),
    spaceVariantB l1 l2 = true →
      l1.map replSpaceChar = l2.map replSpaceChar := by
  intro l1
  induction l1 with
  | nil =>
    intro l2 h
    cases l2 with
    | nil => rfl
    | cons b r2 => simp [spaceVariantB] at h
  | cons a r1 ih =>
    intro l2 h
    cases l2 with
    | nil => simp [spaceVariantB] at h
    | cons b r2 =>
      have he : spaceVariantB (a :: r1) (b :: r2)
          = ((b == a || (a == ' ' && b == '_')) && spaceVariantB r1 r2) := rfl
      rw [he] at h
      simp only [Bool.and_eq_true, Bool.or_eq_true, beq_iff_eq] at h
      obtain ⟨h1, h2⟩ := h
      rw [List.map_cons, List.map_cons, ih r2 h2]
      rcases h1 with rfl | ⟨rfl, rfl⟩
      · rfl
      · rfl

/-- Space/underscore variants are identified by replaceSpaces. -/
theorem replaceSpaces_eq_of_variant (t1 t2 : String)
    (h : spaceVariantB t1.data t2.data = true) :
    replaceSpaces t1 = replaceSpaces t2 := by
  unfold replaceSpaces
  rw [map_replSpaceChar_of_variant t1.data t2.data h]

/-- C10: getPageUrl is not injective across space/underscore variants:
two titles that differ only by replacing some spaces with underscores
yield the identical URL, so the encoded URL cannot be decoded back to
distinguish them; in particular "Main Page" and "Main_Page" collide. -/
theorem getPageUrl_space_underscore_collision (base t1 t2 : String)
    (h : spaceVariantB t1.data t2.data = true) :
    getPageUrl base t1 = getPageUrl base t2
    ∧ getPageUrl "https://wiki.example.com" "Main Page"
      = getPageUrl "https://wiki.example.com" "Main_Page"
    ∧ ("Main Page" : String) ≠ "Main_Page" := by
  refine ⟨?_, by decide, by decide⟩
  unfold getPageUrl
  rw [replaceSpaces_eq_of_variant t1 t2 h]

/-- Witness for C10 at the "Main Page" / "Main_Page" pair. -/
theorem getPageUrl_space_underscore_collision_witness :
    spaceVariantB ("Main Page" : String).data ("Main_Page" : String).data = true
    ∧ getPageUrl "https://wiki.example.com" "Main Page"
      = getPageUrl "https://wiki.example.com" "Main_Page" :=
  ⟨by decide,
   (getPageUrl_space_underscore_collision "https://wiki.example.com"
      "Main Page" "Main_Page" (by decide)).1⟩

end MediaWikiMCP
